import Mathlib

/-!
Shallow embedding of the core of the `bbox_ann_tool` repository.

Modelling conventions:
* Python/numpy floating point values are modelled as exact rationals (`ℚ`);
  the spec's "rounding tolerance" talks about sub-pixel deviations, which the
  exact model makes visible through the explicit integer truncations that the
  source performs (`int(...)`, `.astype(np.int32)`, `//`).
* `int(x)` and `.astype(np.int32)` truncate toward zero, modelled by `pyTrunc`.
* Python's `//` on integers is floor division, modelled by `Int.fdiv`.
* numpy `clip(x, lo, hi)` is `min (max x lo) hi`.
* Raster buffers are modelled by their dimensions `(rows, cols)`; numpy basic
  slicing of an axis is modelled by `npSliceLen`, including the negative-index
  wrap-around and the clamping to the axis length that numpy performs.
* Fallible operations (Python `raise`) are modelled with `Except String`.
-/

/-- Python `int(...)` / numpy `astype(np.int32)` conversion: truncation toward
zero (`int(-16.6) = -16`, `int(16.6) = 16`). -/
def pyTrunc (q : ℚ) : ℤ := if q < 0 then -⌊-q⌋ else ⌊q⌋

/-- numpy `np.clip(x, lo, hi)` on floats: `min(max(x, lo), hi)`. -/
def qclip (x lo hi : ℚ) : ℚ := min (max x lo) hi

/-- numpy `np.clip(x, lo, hi)` on integers. -/
def zclip (x lo hi : ℤ) : ℤ := min (max x lo) hi

/-- numpy basic-slice index normalization for an axis of length `len`:
a negative index counts from the end, then the index is clamped to `[0, len]`. -/
def npNormIdx (len i : ℤ) : ℤ := min (max (if i < 0 then len + i else i) 0) len

/-- Length of the numpy slice `a[start:stop]` on an axis of length `len`. -/
def npSliceLen (len i j : ℤ) : ℤ := max 0 (npNormIdx len j - npNormIdx len i)

/-- `src/bboxanntool/bbox.py` class `BBox`: a rectangle given by two corner
points `p0`, `p1` (float32 coordinates, modelled as `ℚ`). -/
structure BBox where
  p0 : ℚ × ℚ
  p1 : ℚ × ℚ
deriving DecidableEq

namespace BBox

/-- `BBox.width`: `p1[0] - p0[0]` (may be negative if unnormalized). -/
def width (b : BBox) : ℚ := b.p1.1 - b.p0.1

/-- `BBox.height`: `p1[1] - p0[1]`. -/
def height (b : BBox) : ℚ := b.p1.2 - b.p0.2

/-- `BBox.crop(image)`: `image[ymin:ymax, xmin:xmax]` after truncating the
corners to `int` and normalizing to min/max.  The raster is modelled by its
dimensions: `img = (rows, cols)`, and the result is the dimensions of the
cropped raster.  Note the source performs NO degeneracy check here: an empty
slice is returned silently. -/
def crop (b : BBox) (img : ℤ × ℤ) : ℤ × ℤ :=
  let x0 := pyTrunc b.p0.1
  let y0 := pyTrunc b.p0.2
  let x1 := pyTrunc b.p1.1
  let y1 := pyTrunc b.p1.2
  let xmin := min x0 x1
  let xmax := max x0 x1
  let ymin := min y0 y1
  let ymax := max y0 y1
  (npSliceLen img.1 ymin ymax, npSliceLen img.2 xmin xmax)

end BBox

/-- `src/bboxanntool/canvas/viewport.py` class `Viewport`, restricted to states
where an image is attached (all the nullable attributes are set).  `size`,
`canvasSize` and `offset` are int32 2-vectors; `zoomScale` and `baseZoomScale`
are floats (modelled as `ℚ`). -/
structure Viewport where
  size : ℤ × ℤ
  canvasSize : ℤ × ℤ
  zoomScale : ℚ
  offset : ℤ × ℤ
  baseZoomScale : ℚ
deriving DecidableEq

namespace Viewport

/-- `Viewport.setup_canvas_for_image(image)` for a non-`None` image of shape
`(imgH, imgW)` (`canvasSize = image.shape[:2][::-1] = (imgW, imgH)`):
`zoomScale = min(vw/iw, vh/ih)` when both dims are positive, else `1.0`;
`baseZoomScale` records that zoom; `offset = (canvasSize/2).astype(int32)`. -/
def setup_canvas_for_image (size : ℤ × ℤ) (imgH imgW : ℤ) : Viewport :=
  let zs : ℚ := if 0 < imgW ∧ 0 < imgH
    then min ((size.1 : ℚ) / (imgW : ℚ)) ((size.2 : ℚ) / (imgH : ℚ))
    else 1
  { size := size
    canvasSize := (imgW, imgH)
    zoomScale := zs
    offset := (pyTrunc ((imgW : ℚ) / 2), pyTrunc ((imgH : ℚ) / 2))
    baseZoomScale := zs }

/-- `roi_width = int(self.size[0] / self._zoomScale)`. -/
def roiW (s : Viewport) : ℤ := pyTrunc ((s.size.1 : ℚ) / s.zoomScale)

/-- `roi_height = int(self.size[1] / self._zoomScale)`. -/
def roiH (s : Viewport) : ℤ := pyTrunc ((s.size.2 : ℚ) / s.zoomScale)

/-- `roi_x` after the bounds clamp:
`max(0, min(int(offset.x - size.x/(2*zoom)), canvasSize.x - roi_width))`. -/
def roiX (s : Viewport) : ℤ :=
  max 0 (min (pyTrunc ((s.offset.1 : ℚ) - (s.size.1 : ℚ) / (2 * s.zoomScale)))
             (s.canvasSize.1 - s.roiW))

/-- `roi_y` after the bounds clamp. -/
def roiY (s : Viewport) : ℤ :=
  max 0 (min (pyTrunc ((s.offset.2 : ℚ) - (s.size.2 : ℚ) / (2 * s.zoomScale)))
             (s.canvasSize.2 - s.roiH))

/-- `Viewport.roi`: `BBox(p0=[roi_x, roi_y], p1=[roi_x+roi_width, roi_y+roi_height])`. -/
def roi (s : Viewport) : BBox :=
  ⟨((s.roiX : ℚ), (s.roiY : ℚ)), (((s.roiX + s.roiW : ℤ) : ℚ), ((s.roiY + s.roiH : ℤ) : ℚ))⟩

/-- `eff_w = max(min(roi_w, canvas_w - roi_x), 1.0)` (the region actually
sampled from the image, floored at 1 to avoid division by zero). -/
def effW (s : Viewport) : ℚ := max (min ((s.roiW : ℚ)) ((s.canvasSize.1 : ℚ) - (s.roiX : ℚ))) 1

/-- `eff_h = max(min(roi_h, canvas_h - roi_y), 1.0)`. -/
def effH (s : Viewport) : ℚ := max (min ((s.roiH : ℚ)) ((s.canvasSize.2 : ℚ) - (s.roiY : ℚ))) 1

/-- `scale = min(vw / eff_w, vh / eff_h)` in the coordinate mappings. -/
def scaleV (s : Viewport) : ℚ := min ((s.size.1 : ℚ) / s.effW) ((s.size.2 : ℚ) / s.effH)

/-- `target_w = int(eff_w * scale)`. -/
def targetW (s : Viewport) : ℤ := pyTrunc (s.effW * s.scaleV)

/-- `target_h = int(eff_h * scale)`. -/
def targetH (s : Viewport) : ℤ := pyTrunc (s.effH * s.scaleV)

/-- `eff_scale_x = target_w / eff_w`. -/
def effScaleX (s : Viewport) : ℚ := (s.targetW : ℚ) / s.effW

/-- `eff_scale_y = target_h / eff_h`. -/
def effScaleY (s : Viewport) : ℚ := (s.targetH : ℚ) / s.effH

/-- `pad_x = (int(vw) - target_w) // 2` (Python floor division). -/
def padX (s : Viewport) : ℤ := Int.fdiv (s.size.1 - s.targetW) 2

/-- `pad_y = (int(vh) - target_h) // 2`. -/
def padY (s : Viewport) : ℤ := Int.fdiv (s.size.2 - s.targetH) 2

/-- `Viewport.image_to_viewport_coords(p, clamp)`: ROI-relative displacement,
optionally clamped to the effective region, scaled by the effective scales and
shifted by the centering padding. -/
def image_to_viewport_coords (s : Viewport) (p : ℚ × ℚ) (cl : Bool) : ℚ × ℚ :=
  ((cond cl (qclip (p.1 - (s.roiX : ℚ)) 0 s.effW) (p.1 - (s.roiX : ℚ))) * s.effScaleX + (s.padX : ℚ),
   (cond cl (qclip (p.2 - (s.roiY : ℚ)) 0 s.effH) (p.2 - (s.roiY : ℚ))) * s.effScaleY + (s.padY : ℚ))

/-- `Viewport.viewport_to_image_coords(p)`: remove padding, divide by the
effective scale, clamp into `[0, eff]`, and shift by the ROI origin. -/
def viewport_to_image_coords (s : Viewport) (p : ℚ × ℚ) : ℚ × ℚ :=
  (qclip ((p.1 - (s.padX : ℚ)) / s.effScaleX) 0 s.effW + (s.roiX : ℚ),
   qclip ((p.2 - (s.padY : ℚ)) / s.effScaleY) 0 s.effH + (s.roiY : ℚ))

/-- `Viewport.crop_and_resize(img)` modelled at the level of raster dimensions
(`img = (rows, cols)`): crop the ROI, raise `ValueError` if the crop is empty,
otherwise the cropped raster is resized and pasted centered into a buffer of
exactly `self.size`; the result is that buffer's dimensions `(w, h) = size`. -/
def crop_and_resize (s : Viewport) (img : ℤ × ℤ) : Except String (ℤ × ℤ) :=
  let d := (s.roi).crop img
  if d.1 = 0 ∨ d.2 = 0 then
    .error "Attempted to crop the roi from the image, resulting in an empty crop."
  else
    .ok s.size

/-- `Viewport._clamp_offset`: `half = (size/(2*zoom)).astype(int32)`,
`min_off = half`, `max_off = maximum(min_off, canvasSize - half)`,
`offset = clip(offset, min_off, max_off)`. -/
def clamp_offset (s : Viewport) : Viewport :=
  let halfX := pyTrunc ((s.size.1 : ℚ) / (2 * s.zoomScale))
  let halfY := pyTrunc ((s.size.2 : ℚ) / (2 * s.zoomScale))
  let maxX := max halfX (s.canvasSize.1 - halfX)
  let maxY := max halfY (s.canvasSize.2 - halfY)
  { s with offset := (zclip s.offset.1 halfX maxX, zclip s.offset.2 halfY maxY) }

/-- The `center_canvas` computation inside `Viewport.zoom`: the image-space
point under the screen point `c` according to the current (un-truncated)
linear transform: `offset - size/(2*zoom) + c/zoom`. -/
def center_canvas (s : Viewport) (c : ℚ × ℚ) : ℚ × ℚ :=
  ((s.offset.1 : ℚ) - (s.size.1 : ℚ) / (2 * s.zoomScale) + c.1 / s.zoomScale,
   (s.offset.2 : ℚ) - (s.size.2 : ℚ) / (2 * s.zoomScale) + c.2 / s.zoomScale)

/-- The zoom-scale update inside `Viewport.zoom`: `proposed = zoom * m`,
clamped up to `baseZoomScale` when `baseZoomScale < 1` and the proposal dips
below it. -/
def newZoomScale (s : Viewport) (m : ℚ) : ℚ :=
  let proposed := s.zoomScale * m
  if s.baseZoomScale < 1 ∧ proposed < s.baseZoomScale then s.baseZoomScale else proposed

/-- The exact (pre-truncation) new offset computed by `Viewport.zoom`:
`center_canvas - c/newZoom + size/(2*newZoom)`. -/
def zoomOffsetExact (s : Viewport) (m : ℚ) (c : ℚ × ℚ) : ℚ × ℚ :=
  let cc := center_canvas s c
  let z2 := newZoomScale s m
  (cc.1 - c.1 / z2 + (s.size.1 : ℚ) / (2 * z2),
   cc.2 - c.2 / z2 + (s.size.2 : ℚ) / (2 * z2))

/-- The state `Viewport.zoom` builds just before `_clamp_offset`: new zoom
scale, and the new offset truncated to int32. -/
def zoomUnclamped (s : Viewport) (m : ℚ) (c : ℚ × ℚ) : Viewport :=
  let e := zoomOffsetExact s m c
  { s with zoomScale := newZoomScale s m, offset := (pyTrunc e.1, pyTrunc e.2) }

/-- Body of `Viewport.zoom` after its guards (`m > 0`, `m ≠ 1`, image attached). -/
def zoomCore (s : Viewport) (m : ℚ) (c : ℚ × ℚ) : Viewport :=
  clamp_offset (zoomUnclamped s m c)

/-- `Viewport.zoom(magnification, center)` on an attached state:
`magnification == 1` returns unchanged, otherwise the zoom body runs.
(The `magnification <= 0` error is modelled in `ViewportObj.zoomE`.) -/
def zoom (s : Viewport) (m : ℚ) (c : ℚ × ℚ) : Viewport :=
  if m = 1 then s else zoomCore s m c

/-- `Viewport.pan(dx, dy)`: `offset = (offset - [dx,dy]/zoom).astype(int32)`
followed by `_clamp_offset`. -/
def pan (s : Viewport) (dx dy : ℤ) : Viewport :=
  clamp_offset { s with offset :=
    (pyTrunc ((s.offset.1 : ℚ) - (dx : ℚ) / s.zoomScale),
     pyTrunc ((s.offset.2 : ℚ) - (dy : ℚ) / s.zoomScale)) }

/-- `Viewport.set_offset(value)`: float-precision clamp with
`half = size/(2*zoom)` (NOT truncated here, unlike `_clamp_offset`),
`max_off = maximum(half, canvasSize - half)`, then truncation to int32. -/
def set_offset (s : Viewport) (v : ℚ × ℚ) : Viewport :=
  let halfX : ℚ := (s.size.1 : ℚ) / (2 * s.zoomScale)
  let halfY : ℚ := (s.size.2 : ℚ) / (2 * s.zoomScale)
  let maxX := max halfX ((s.canvasSize.1 : ℚ) - halfX)
  let maxY := max halfY ((s.canvasSize.2 : ℚ) - halfY)
  { s with offset := (pyTrunc (qclip v.1 halfX maxX), pyTrunc (qclip v.2 halfY maxY)) }

/-- The screen coordinate at which the linear screen↔image transform of state
`s` displays the image-space point `p`; this is the inverse of the transform
`center_canvas` that `Viewport.zoom` uses to convert a screen point to an
image point (see `center_canvas_screenOf`). -/
def screenOf (s : Viewport) (p : ℚ × ℚ) : ℚ × ℚ :=
  ((p.1 - (s.offset.1 : ℚ)) * s.zoomScale + (s.size.1 : ℚ) / 2,
   (p.2 - (s.offset.2 : ℚ)) * s.zoomScale + (s.size.2 : ℚ) / 2)

/-- `zoom(0.5)` with the default center (`size/2`), as used by the spec's
"repeated `zoom(0.5)` calls" scenario. -/
def zoomHalf (s : Viewport) : Viewport :=
  zoom s (1 / 2) ((s.size.1 : ℚ) / 2, (s.size.2 : ℚ) / 2)

/-- `n` repeated `zoom(0.5)` calls. -/
def zoomHalfIter : ℕ → Viewport → Viewport
  | 0, s => s
  | n + 1, s => zoomHalfIter n (zoomHalf s)

end Viewport

/-- States reachable from `s₀` by any sequence of `zoom` (with positive
magnification, as enforced by the source's guard), `pan` and `set_offset`
calls. -/
inductive ReachFrom (s₀ : Viewport) : Viewport → Prop
  | refl : ReachFrom s₀ s₀
  | zoom (s : Viewport) (m : ℚ) (c : ℚ × ℚ) (hm : 0 < m) :
      ReachFrom s₀ s → ReachFrom s₀ (Viewport.zoom s m c)
  | pan (s : Viewport) (dx dy : ℤ) :
      ReachFrom s₀ s → ReachFrom s₀ (Viewport.pan s dx dy)
  | set_offset (s : Viewport) (v : ℚ × ℚ) :
      ReachFrom s₀ s → ReachFrom s₀ (Viewport.set_offset s v)

/-- A state produced by `setup_canvas_for_image` for a positive-sized viewport
and an attached (possibly empty) image. -/
def IsSetup (s : Viewport) : Prop :=
  ∃ (size : ℤ × ℤ) (imgH imgW : ℤ),
    0 < size.1 ∧ 0 < size.2 ∧ 0 ≤ imgH ∧ 0 ≤ imgW ∧
    s = Viewport.setup_canvas_for_image size imgH imgW

/-- The `Viewport` Python object including its nullable attributes: before
`setup_canvas_for_image` attaches an image, `canvasSize`, `zoomScale`,
`offset` and `baseZoomScale` are all `None`. -/
structure ViewportObj where
  size : ℤ × ℤ
  canvasSize : Option (ℤ × ℤ)
  zoomScale : Option ℚ
  offset : Option (ℤ × ℤ)
  baseZoomScale : Option ℚ
deriving DecidableEq

/-- Whether an `Except` result is an error (a raised Python exception). -/
def isErr {α : Type} : Except String α → Bool
  | .error _ => true
  | .ok _ => false

namespace ViewportObj

/-- A freshly constructed `Viewport` object: no image attached yet. -/
def mkNew (size : ℤ × ℤ) : ViewportObj := ⟨size, none, none, none, none⟩

/-- View of an object state as an attached `Viewport` state.  `baseZoomScale`
defaults to `1`, which makes the zoom clamp condition
(`base is not None and base < 1 and ...`) behave identically to `None`. -/
def asAttached (s : ViewportObj) (cs : ℤ × ℤ) (z : ℚ) (o : ℤ × ℤ) : Viewport :=
  ⟨s.size, cs, z, o, s.baseZoomScale.getD 1⟩

/-- `canvasSize` property: raises before an image is attached. -/
def canvasSizeA (s : ViewportObj) : Except String (ℤ × ℤ) :=
  match s.canvasSize with
  | none => .error "Cannot access canvas size before setting up the canvas for an image."
  | some v => .ok v

/-- `zoomScale` property: raises before an image is attached. -/
def zoomScaleA (s : ViewportObj) : Except String ℚ :=
  match s.zoomScale with
  | none => .error "Cannot access zoom scale before setting up the canvas for an image."
  | some v => .ok v

/-- `offset` property: raises before an image is attached. -/
def offsetA (s : ViewportObj) : Except String (ℤ × ℤ) :=
  match s.offset with
  | none => .error "Cannot access offset before setting up the canvas for an image."
  | some v => .ok v

/-- `Viewport.roi` property: raises when any of the three attributes is unset. -/
def roiE (s : ViewportObj) : Except String BBox :=
  match s.canvasSize, s.zoomScale, s.offset with
  | some cs, some z, some o => .ok ((s.asAttached cs z o).roi)
  | _, _, _ => .error "Canvas is not set up for rendering. Call setup_canvas_for_image first."

/-- `Viewport.image_to_viewport_coords`: raises when the canvas is unset. -/
def image_to_viewport_coordsE (s : ViewportObj) (p : ℚ × ℚ) (cl : Bool) :
    Except String (ℚ × ℚ) :=
  match s.canvasSize, s.zoomScale, s.offset with
  | some cs, some z, some o => .ok ((s.asAttached cs z o).image_to_viewport_coords p cl)
  | _, _, _ => .error "Canvas not set up."

/-- `Viewport.viewport_to_image_coords`: raises when the canvas is unset. -/
def viewport_to_image_coordsE (s : ViewportObj) (p : ℚ × ℚ) : Except String (ℚ × ℚ) :=
  match s.canvasSize, s.zoomScale, s.offset with
  | some cs, some z, some o => .ok ((s.asAttached cs z o).viewport_to_image_coords p)
  | _, _, _ => .error "Canvas not set up."

/-- `Viewport.crop_and_resize`: its first ROI access raises when the canvas is
unset. -/
def crop_and_resizeE (s : ViewportObj) (img : ℤ × ℤ) : Except String (ℤ × ℤ) :=
  match s.canvasSize, s.zoomScale, s.offset with
  | some cs, some z, some o => (s.asAttached cs z o).crop_and_resize img
  | _, _, _ => .error "Canvas is not set up for rendering. Call setup_canvas_for_image first."

/-- `Viewport.zoom`: checks `magnification > 0` first, returns unchanged on
`magnification == 1`, then raises if the canvas is unset. -/
def zoomE (s : ViewportObj) (m : ℚ) (c : Option (ℚ × ℚ)) : Except String ViewportObj :=
  if m ≤ 0 then .error "Magnification must be greater than 0."
  else if m = 1 then .ok s
  else
    match s.canvasSize, s.zoomScale, s.offset with
    | some cs, some z, some o =>
      let c2 := c.getD ((s.size.1 : ℚ) / 2, (s.size.2 : ℚ) / 2)
      let v2 := Viewport.zoomCore (s.asAttached cs z o) m c2
      .ok { s with zoomScale := some v2.zoomScale, offset := some v2.offset }
    | _, _, _ => .error "Canvas is not set up for zooming. Call setup_canvas_for_image first."

/-- `Viewport.pan`: raises when the canvas is unset. -/
def panE (s : ViewportObj) (dx dy : ℤ) : Except String ViewportObj :=
  match s.canvasSize, s.zoomScale, s.offset with
  | some cs, some z, some o =>
    let v2 := Viewport.pan (s.asAttached cs z o) dx dy
    .ok { s with offset := some v2.offset }
  | _, _, _ => .error "Canvas is not set up for panning. Call setup_canvas_for_image first."

/-- `Viewport.set_offset`: the source checks only `canvasSize`/`zoomScale` and
SILENTLY RETURNS (no exception) when either is `None`. -/
def set_offsetE (s : ViewportObj) (v : ℚ × ℚ) : Except String ViewportObj :=
  match s.canvasSize, s.zoomScale with
  | some cs, some z =>
    let v2 := Viewport.set_offset (s.asAttached cs z (s.offset.getD (0, 0))) v
    .ok { s with offset := some v2.offset }
  | _, _ => .ok s

end ViewportObj

/-- JSON values, as far as the annotation store needs them. -/
inductive Json where
  | num (q : ℚ)
  | str (s : String)
  | arr (elems : List Json)
  | obj (entries : List (String × Json))

/-- Key lookup in a JSON object (Python `dict` access / `in` test). -/
def jget : List (String × Json) → String → Option Json
  | [], _ => none
  | (k, v) :: rest, key => if k = key then some v else jget rest key

/-- `src/bboxanntool/annotation.py` class `BBox` (the annotation variant):
a label plus two corner points.  The label is kept as the raw JSON value the
source would store via `_dict.get('label', '')`. -/
structure AnnBBox where
  label : Json
  p0 : ℚ × ℚ
  p1 : ℚ × ℚ

/-- `np.array(value, dtype=np.float32)` for a 2-element numeric list
(the only shape the annotation schema produces). -/
def toPoint2 (j : Json) : Except String (ℚ × ℚ) :=
  match j with
  | .arr [.num a, .num b] => .ok (a, b)
  | _ => .error "cannot convert value to a 2d float point"

/-- The old-format branch: `bbox = ann.get('bbox', ...)`; entries are used only
when `len(bbox) >= 4` (shorter lists are skipped silently). -/
def bboxHead4 (xs : List Json) : Except String (Option ((ℚ × ℚ) × (ℚ × ℚ))) :=
  match xs with
  | .num a :: .num b :: .num c :: .num d :: _ => .ok (some ((a, b), (c, d)))
  | _ =>
    if xs.length < 4 then .ok none
    else .error "cannot convert bbox entries to floats"

/-- `Annotation.from_dict` for dictionaries carrying a `shape` key, dispatching
to `BBox.from_dict` (label defaults to `''`, points default to `[0,0]`). -/
def annotationFromDict (entries : List (String × Json)) : Except String AnnBBox :=
  match jget entries "shape" with
  | none => .error "Invalid annotation dictionary: missing shape key"
  | some (.str "Annotation") => .error "Base Annotation class cannot be instantiated directly"
  | some (.str "BBox") => do
    let p0 ← toPoint2 ((jget entries "p0").getD (.arr [.num 0, .num 0]))
    let p1 ← toPoint2 ((jget entries "p1").getD (.arr [.num 0, .num 0]))
    .ok ⟨(jget entries "label").getD (.str ""), p0, p1⟩
  | some _ => .error "Unknown annotation shape"

namespace Annotations

/-- `Annotations.from_dict(ann_list)`: each element must be a dict; a dict with
a `shape` key goes through `Annotation.from_dict`; a dict with `bbox` and
`label` keys is the old format, upgraded to a `BBox` (skipped when the bbox
list is shorter than 4); anything else raises `ValueError`. -/
def from_dict : List Json → Except String (List AnnBBox)
  | [] => .ok []
  | j :: rest =>
    match j with
    | .obj entries =>
      if (jget entries "shape").isSome then do
        let a ← annotationFromDict entries
        let r ← from_dict rest
        .ok (a :: r)
      else if (jget entries "bbox").isSome && (jget entries "label").isSome then
        match (jget entries "bbox").getD (.arr [.num 0, .num 0, .num 0, .num 0]) with
        | .arr xs => do
          let ob ← bboxHead4 xs
          let r ← from_dict rest
          match ob with
          | some (p0, p1) => .ok (⟨(jget entries "label").getD (.str ""), p0, p1⟩ :: r)
          | none => .ok r
        | _ => .error "bbox value is not a list"
      else .error "Invalid annotation format: missing required keys"
    | _ => .error "Invalid annotation format: expected dict"

/-- `Annotations.load` applied to the parsed JSON document (file I/O elided):
a top-level list is passed to `from_dict` directly; a dict with an
`annotations` key passes that value; anything else raises `ValueError`. -/
def load (data : Json) : Except String (List AnnBBox) :=
  match data with
  | .arr xs => from_dict xs
  | .obj entries =>
    match jget entries "annotations" with
    | some (.arr xs) => from_dict xs
    | some _ => .error "annotations value is not iterable"
    | none => .error "Invalid annotation file format"
  | _ => .error "Invalid annotation file format"

end Annotations

/-- A `[x1, y1, x2, y2]` bbox as stored in the editing controller's
annotation dicts. -/
structure Bbox4 where
  x1 : ℚ
  y1 : ℚ
  x2 : ℚ
  y2 : ℚ
deriving DecidableEq

/-- The `[min(x1,x2), min(y1,y2), max(x1,x2), max(y1,y2)]` re-normalization
performed before emitting `bbox_modified`. -/
def normalizeBox (b : Bbox4) : Bbox4 :=
  ⟨min b.x1 b.x2, min b.y1 b.y2, max b.x1 b.x2, max b.y1 b.y2⟩

/-- `src/bboxanntool/controllers.py` class `EditingController` (drag state). -/
structure EditingController where
  dragging : Bool
  drag_start : Option (ℚ × ℚ)
  selected_point : Option (ℕ × ℕ)
deriving DecidableEq

/-- `EditingController.update_dragging(point, annotations)`: returns the
boolean result, the emitted `bbox_modified(index, new_bbox)` signal (if any),
and the updated controller state.  The early returns mirror the source: not
dragging / no selection, then the stale-index guard `bbox_idx >= len`. -/
def update_dragging (st : EditingController) (point : ℚ × ℚ) (anns : List Bbox4) :
    Bool × Option (ℕ × Bbox4) × EditingController :=
  if st.dragging = false ∨ st.selected_point = none then (false, none, st)
  else
    match st.selected_point with
    | none => (false, none, st)
    | some (bbox_idx, point_idx) =>
      if h : bbox_idx < anns.length then
        let b := anns[bbox_idx]
        let a := st.drag_start.getD (0, 0)
        let dx := point.1 - a.1
        let dy := point.2 - a.2
        let moved : Bbox4 :=
          if point_idx = 4 then ⟨b.x1 + dx, b.y1 + dy, b.x2 + dx, b.y2 + dy⟩
          else if point_idx = 0 then ⟨point.1, point.2, b.x2, b.y2⟩
          else if point_idx = 1 then ⟨b.x1, point.2, point.1, b.y2⟩
          else if point_idx = 2 then ⟨b.x1, b.y1, point.1, point.2⟩
          else if point_idx = 3 then ⟨point.1, b.y1, b.x2, point.2⟩
          else b
        (true, some (bbox_idx, normalizeBox moved), { st with drag_start := some point })
      else (false, none, st)

/-- Concrete state used for claim C1's counterexample: the state produced by
`setup_canvas_for_image` for a 100x100 image in an 800x400 viewport
(zoomScale 4, offset (50,50)); its ROI is `[0,0]..[200,100]`, wider than the
100-pixel canvas. -/
def vpC1 : Viewport := Viewport.setup_canvas_for_image (800, 400) 100 100

/-- Concrete state for claim C2's counterexample: `setup_canvas_for_image` for
a 100x50 image (50 rows, 100 cols) in a 400x600 viewport (zoomScale 4,
offset (50,25)); its ROI is `[0,0]..[100,150]`, taller than the 50-pixel
canvas. -/
def vpC2 : Viewport := Viewport.setup_canvas_for_image (400, 600) 50 100

/-- Viewport state used by several claims: `setup_canvas_for_image` for a
1600x1200 image in an 800x600 viewport (`zoomScale = baseZoomScale = 1/2`,
`offset = (800, 600)`). -/
def vpFit : Viewport := Viewport.setup_canvas_for_image (800, 600) 1200 1600

/-- Concrete state for claim C3's counterexample: reached from the setup state
`vpFit` by `zoom(2, center=(0,0))`; equals
`⟨(800,600), (1600,1200), 1, (400,300), 1/2⟩`. -/
def vpC3 : Viewport := Viewport.zoom vpFit 2 (0, 0)

/-- The legacy bare-list annotation document `[[[1,2],[3,4]]]` (one
`[[x1,y1],[x2,y2]]` point pair). -/
def legacyPairListJson : Json :=
  .arr [.arr [.arr [.num 1, .num 2], .arr [.num 3, .num 4]]]

/-- The legacy object annotation document
`{"annotations": [{"label": "cat", "bbox": [1, 2, 3, 4]}]}`. -/
def legacyObjJson : Json :=
  .obj [("annotations", .arr [.obj [("label", .str "cat"),
                                    ("bbox", .arr [.num 1, .num 2, .num 3, .num 4])]])]

/-! ## Helper lemmas -/

theorem pyTrunc_intCast (n : ℤ) : pyTrunc ((n : ℚ)) = n := by
  unfold pyTrunc
  split
  · rw [← Int.cast_neg, Int.floor_intCast]
    ring
  · rw [Int.floor_intCast]

/-- Evaluation rule for `pyTrunc` on nonnegative values (truncation = floor). -/
theorem pyTrunc_eval_nonneg {q : ℚ} {n : ℤ} (h0 : 0 ≤ n) (h1 : (n : ℚ) ≤ q)
    (h2 : q < n + 1) : pyTrunc q = n := by
  have hq : ¬ q < 0 := by
    push_neg
    calc (0:ℚ) ≤ n := by exact_mod_cast h0
      _ ≤ q := h1
  rw [pyTrunc, if_neg hq, Int.floor_eq_iff]
  exact ⟨h1, h2⟩

/-- Evaluation rule for `pyTrunc` on nonpositive values (truncation = ceiling). -/
theorem pyTrunc_eval_nonpos {q : ℚ} {n : ℤ} (h0 : n ≤ 0) (h1 : q ≤ (n : ℚ))
    (h2 : (n : ℚ) - 1 < q) : pyTrunc q = n := by
  rcases lt_or_ge q 0 with hq | hq
  · rw [pyTrunc, if_pos hq, neg_eq_iff_eq_neg, Int.floor_eq_iff]
    constructor
    · push_cast
      linarith
    · push_cast
      linarith
  · have hn0 : (0:ℚ) ≤ (n : ℚ) := le_trans hq h1
    have hn0' : (0:ℤ) ≤ n := by exact_mod_cast hn0
    have hn : n = 0 := le_antisymm h0 hn0'
    subst hn
    rw [pyTrunc, if_neg (not_lt.mpr hq), Int.floor_eq_iff]
    refine ⟨by exact_mod_cast hq, ?_⟩
    push_cast at h1 ⊢
    linarith

theorem pyTrunc_abs_lt_one (q : ℚ) : |q - (pyTrunc q : ℚ)| < 1 := by
  unfold pyTrunc
  split
  · next h =>
    push_cast
    rw [abs_lt]
    have h1 := Int.floor_le (-q)
    have h2 := Int.lt_floor_add_one (-q)
    constructor <;> linarith
  · next h =>
    rw [abs_lt]
    have h1 := Int.floor_le q
    have h2 := Int.lt_floor_add_one q
    constructor <;> linarith

theorem npSliceLen_self (l a : ℤ) : npSliceLen l a a = 0 := by
  unfold npSliceLen
  simp

/-- Bounds of the single-axis ROI clamp `max 0 (min a (c - w))` performed in
`Viewport.roi`. -/
theorem roi_clamp_axis (a c w : ℤ) :
    0 ≤ max 0 (min a (c - w)) ∧
    (w ≤ c → max 0 (min a (c - w)) + w ≤ c) ∧
    (c < w → max 0 (min a (c - w)) = 0) := by
  refine ⟨le_max_left 0 _, fun h => ?_, fun h => ?_⟩
  · have h1 : min a (c - w) ≤ c - w := min_le_right _ _
    have h2 : max 0 (min a (c - w)) ≤ c - w := max_le (by omega) h1
    omega
  · have h1 : min a (c - w) ≤ c - w := min_le_right _ _
    exact max_eq_left (by omega)

/-- Single-axis round trip of the coordinate mappings: mapping forward with
scale `t` and padding `pad` and back, then clamping, recovers the point when
the ROI-relative displacement already lies in `[0, eff]`. -/
theorem roundtrip_component (t eff pad rx x : ℚ) (ht : 0 < t)
    (h0 : rx ≤ x) (h1 : x - rx ≤ eff) :
    qclip (((x - rx) * t + pad - pad) / t) 0 eff + rx = x := by
  have hne : t ≠ 0 := ne_of_gt ht
  have hdiv : ((x - rx) * t + pad - pad) / t = x - rx := by
    field_simp
  rw [hdiv, qclip, max_eq_left (by linarith), min_eq_left h1]
  ring

/-- `vpC1` evaluated: viewport (800,400), canvas (100,100), zoom 4,
offset (50,50), base 4. -/
theorem vpC1_eq : vpC1 = ⟨(800, 400), (100, 100), 4, (50, 50), 4⟩ := by
  unfold vpC1 Viewport.setup_canvas_for_image
  norm_num [min_def]
  apply pyTrunc_eval_nonneg <;> norm_num

/-- The ROI of `vpC1`: `[0,0]..[200,100]`, overshooting the 100-pixel canvas
on the x axis. -/
theorem vpC1_roi : vpC1.roi = ⟨(0, 0), (200, 100)⟩ := by
  rw [vpC1_eq]
  have hW : Viewport.roiW ⟨(800, 400), (100, 100), 4, (50, 50), 4⟩ = 200 := by
    unfold Viewport.roiW
    apply pyTrunc_eval_nonneg <;> norm_num
  have hH : Viewport.roiH ⟨(800, 400), (100, 100), 4, (50, 50), 4⟩ = 100 := by
    unfold Viewport.roiH
    apply pyTrunc_eval_nonneg <;> norm_num
  have hX : Viewport.roiX ⟨(800, 400), (100, 100), 4, (50, 50), 4⟩ = 0 := by
    unfold Viewport.roiX
    rw [hW]
    have hT : pyTrunc (((50 : ℤ) : ℚ) - ((800 : ℤ) : ℚ) / (2 * 4)) = -50 := by
      apply pyTrunc_eval_nonpos <;> norm_num
    norm_num at hT ⊢
  have hY : Viewport.roiY ⟨(800, 400), (100, 100), 4, (50, 50), 4⟩ = 0 := by
    unfold Viewport.roiY
    rw [hH]
    have hT : pyTrunc (((50 : ℤ) : ℚ) - ((400 : ℤ) : ℚ) / (2 * 4)) = 0 := by
      apply pyTrunc_eval_nonneg <;> norm_num
    norm_num at hT ⊢
  unfold Viewport.roi
  rw [hW, hH, hX, hY]
  norm_num

/-! ## Claim C10 -/

/-- Claim C10: if `setup_canvas_for_image` is called with a non-None image
whose width or height is zero, `zoomScale` is set to `1.0` instead of being
computed by dividing viewport dimensions by image dimensions, so setup never
divides by zero and leaves `zoomScale` positive.  Confirmed: the source guards
the division with `if iw > 0 and ih > 0` and falls back to `1.0`. -/
theorem C10_zero_dim_guard (size : ℤ × ℤ) (imgH imgW : ℤ) (h : imgW = 0 ∨ imgH = 0) :
    (Viewport.setup_canvas_for_image size imgH imgW).zoomScale = 1 ∧
    0 < (Viewport.setup_canvas_for_image size imgH imgW).zoomScale := by
  have hno : ¬(0 < imgW ∧ 0 < imgH) := by
    rintro ⟨h1, h2⟩
    rcases h with h | h <;> omega
  have h1 : (Viewport.setup_canvas_for_image size imgH imgW).zoomScale = 1 := by
    show (if 0 < imgW ∧ 0 < imgH then _ else 1) = 1
    rw [if_neg hno]
  exact ⟨h1, by rw [h1]; norm_num⟩

/-- Witness for C10 at the concrete input: a 7-row, 0-column image in a
640x480 viewport. -/
theorem C10_zero_dim_guard_witness :
    ((0 : ℤ) = 0 ∨ (7 : ℤ) = 0) ∧
    ((Viewport.setup_canvas_for_image (640, 480) 7 0).zoomScale = 1 ∧
     0 < (Viewport.setup_canvas_for_image (640, 480) 7 0).zoomScale) :=
  ⟨Or.inl rfl, C10_zero_dim_guard (640, 480) 7 0 (Or.inl rfl)⟩

/-! ## Claim C9 -/

/-- Claim C9: during an active drag, if the recorded annotation index is `>=`
the length of the annotations list passed in, `update_dragging` returns
`False`, emits no modification, and performs no out-of-range access (the
guard `bbox_idx >= len(annotations)` returns before any list indexing).
Confirmed: the call returns `(false, no signal, unchanged state)`. -/
theorem C9_stale_selection (ds : Option (ℚ × ℚ)) (point : ℚ × ℚ) (i pidx : ℕ)
    (anns : List Bbox4) (h : anns.length ≤ i) :
    update_dragging ⟨true, ds, some (i, pidx)⟩ point anns =
      (false, none, ⟨true, ds, some (i, pidx)⟩) := by
  dsimp only [update_dragging]
  rw [if_neg (by simp), dif_neg (by omega)]

/-- Witness for C9: stale index 5 against an empty annotation list. -/
theorem C9_stale_selection_witness :
    ([] : List Bbox4).length ≤ 5 ∧
    update_dragging ⟨true, some (0, 0), some (5, 0)⟩ (3, 3) ([] : List Bbox4) =
      (false, none, ⟨true, some (0, 0), some (5, 0)⟩) :=
  ⟨by decide, C9_stale_selection (some (0, 0)) (3, 3) 5 0 [] (by decide)⟩

/-! ## Claim C6 -/

/-- Claim C6 counterexample: the zero-width box `p0=(5,5), p1=(5,9)` cropped
from a 10x10 raster.  `BBox.crop` is a plain slice with no error channel: it
silently returns an empty 4x0 raster, refuting the claim that the Box crop
operation detects a zero-area region and signals an explicit error. -/
theorem C6_degenerate_crop_counterexample :
    BBox.crop ⟨(5, 5), (5, 9)⟩ (10, 10) = (4, 0) := by decide

/-- Claim C6 as amended: `BBox.crop` silently returns a zero-area raster for
every degenerate (equal normalized integer corners on an axis) box; the
degeneracy is instead detected by `Viewport.crop_and_resize`, which raises an
explicit `ValueError` whenever the ROI crop comes back empty. -/
theorem C6_degenerate_crop_amended :
    (∀ (b : BBox) (img : ℤ × ℤ),
      (min (pyTrunc b.p0.1) (pyTrunc b.p1.1) = max (pyTrunc b.p0.1) (pyTrunc b.p1.1) ∨
       min (pyTrunc b.p0.2) (pyTrunc b.p1.2) = max (pyTrunc b.p0.2) (pyTrunc b.p1.2)) →
      (b.crop img).1 = 0 ∨ (b.crop img).2 = 0) ∧
    (∀ (s : Viewport) (img : ℤ × ℤ),
      ((s.roi.crop img).1 = 0 ∨ (s.roi.crop img).2 = 0) →
      isErr (s.crop_and_resize img) = true) := by
  constructor
  · rintro b img (h | h)
    · right
      show npSliceLen img.2 (min (pyTrunc b.p0.1) (pyTrunc b.p1.1))
          (max (pyTrunc b.p0.1) (pyTrunc b.p1.1)) = 0
      rw [h]
      exact npSliceLen_self _ _
    · left
      show npSliceLen img.1 (min (pyTrunc b.p0.2) (pyTrunc b.p1.2))
          (max (pyTrunc b.p0.2) (pyTrunc b.p1.2)) = 0
      rw [h]
      exact npSliceLen_self _ _
  · intro s img h
    have he : s.crop_and_resize img =
        .error "Attempted to crop the roi from the image, resulting in an empty crop." := by
      unfold Viewport.crop_and_resize
      rw [if_pos h]
    rw [he]
    rfl

/-- Witness for C6: a degenerate box with equal x-corners, and `vpC1` whose
ROI crop of an empty (0x0) raster is empty, which makes `crop_and_resize`
raise. -/
theorem C6_degenerate_crop_witness :
    ((min (pyTrunc ((2 : ℚ))) (pyTrunc ((2 : ℚ))) = max (pyTrunc ((2 : ℚ))) (pyTrunc ((2 : ℚ))) ∨
      min (pyTrunc ((3 : ℚ))) (pyTrunc ((8 : ℚ))) = max (pyTrunc ((3 : ℚ))) (pyTrunc ((8 : ℚ)))) ∧
     ((BBox.crop ⟨(2, 3), (2, 8)⟩ (10, 10)).1 = 0 ∨ (BBox.crop ⟨(2, 3), (2, 8)⟩ (10, 10)).2 = 0)) ∧
    (((vpC1.roi.crop (0, 0)).1 = 0 ∨ (vpC1.roi.crop (0, 0)).2 = 0) ∧
     isErr (vpC1.crop_and_resize (0, 0)) = true) :=
  ⟨⟨by decide, C6_degenerate_crop_amended.1 ⟨(2, 3), (2, 8)⟩ (10, 10) (by decide)⟩,
   ⟨by rw [vpC1_roi]; decide, C6_degenerate_crop_amended.2 vpC1 (0, 0) (by rw [vpC1_roi]; decide)⟩⟩

/-! ## Claim C7 -/

/-- Claim C7 counterexample: `Annotations.load` applied to the bare legacy
list `[[[1,2],[3,4]]]` of point pairs.  The claim says this is upgraded to one
BBox annotation with an empty label; the source instead raises `ValueError`
(`Annotations.from_dict` requires every element to be a dict). -/
theorem C7_legacy_load_counterexample :
    Annotations.load legacyPairListJson =
      Except.error "Invalid annotation format: expected dict" := rfl

/-- Claim C7 as amended: `Annotations.load` accepts the legacy object schema
`{"annotations": [{"label", "bbox": [x1,y1,x2,y2]}]}`, upgrading each entry to
a BBox annotation (the quoted scenario yields exactly label "cat",
`p0=[1,2]`, `p1=[3,4]`), but a bare list of `[[x1,y1],[x2,y2]]` point pairs is
NOT accepted: it raises `ValueError` instead of being upgraded with empty
labels. -/
theorem C7_legacy_load_amended :
    Annotations.load legacyObjJson = Except.ok [⟨Json.str "cat", (1, 2), (3, 4)⟩] ∧
    isErr (Annotations.load legacyPairListJson) = true :=
  ⟨rfl, rfl⟩

/-! ## Claim C5 -/

/-- Claim C5 counterexample: `set_offset` invoked before
`setup_canvas_for_image` silently returns with the state unchanged (the
source's early `return`), contradicting the claim that every listed operation
signals a descriptive error and never silently no-ops. -/
theorem C5_fail_fast_counterexample :
    ViewportObj.set_offsetE (ViewportObj.mkNew (800, 600)) (10, 10) =
      Except.ok (ViewportObj.mkNew (800, 600)) := rfl

/-- Claim C5 as amended: before an image is attached, `zoom` (for any
magnification other than the no-op `1`), `pan`, the `roi` computation,
`crop_and_resize`, both coordinate transforms and the
`canvasSize`/`zoomScale`/`offset` accessors all raise descriptive errors, but
`set_offset` silently returns without error and without changing the state. -/
theorem C5_fail_fast_amended (sz : ℤ × ℤ) (m : ℚ) (hm : m ≠ 1) (c : Option (ℚ × ℚ))
    (dx dy : ℤ) (p v : ℚ × ℚ) (img : ℤ × ℤ) :
    isErr (ViewportObj.zoomE (ViewportObj.mkNew sz) m c) = true ∧
    isErr (ViewportObj.panE (ViewportObj.mkNew sz) dx dy) = true ∧
    isErr (ViewportObj.roiE (ViewportObj.mkNew sz)) = true ∧
    isErr (ViewportObj.canvasSizeA (ViewportObj.mkNew sz)) = true ∧
    isErr (ViewportObj.zoomScaleA (ViewportObj.mkNew sz)) = true ∧
    isErr (ViewportObj.offsetA (ViewportObj.mkNew sz)) = true ∧
    isErr (ViewportObj.image_to_viewport_coordsE (ViewportObj.mkNew sz) p true) = true ∧
    isErr (ViewportObj.image_to_viewport_coordsE (ViewportObj.mkNew sz) p false) = true ∧
    isErr (ViewportObj.viewport_to_image_coordsE (ViewportObj.mkNew sz) p) = true ∧
    isErr (ViewportObj.crop_and_resizeE (ViewportObj.mkNew sz) img) = true ∧
    ViewportObj.set_offsetE (ViewportObj.mkNew sz) v = Except.ok (ViewportObj.mkNew sz) := by
  refine ⟨?_, rfl, rfl, rfl, rfl, rfl, rfl, rfl, rfl, rfl, rfl⟩
  unfold ViewportObj.zoomE
  rcases le_or_lt m 0 with h | h
  · rw [if_pos h]
    rfl
  · rw [if_neg (not_le.mpr h), if_neg hm]
    rfl

/-- Witness for C5 at concrete inputs (`m = 2`). -/
theorem C5_fail_fast_amended_witness :
    ((2 : ℚ) ≠ 1) ∧
    (isErr (ViewportObj.zoomE (ViewportObj.mkNew (800, 600)) 2 none) = true ∧
     isErr (ViewportObj.panE (ViewportObj.mkNew (800, 600)) 3 4) = true ∧
     isErr (ViewportObj.roiE (ViewportObj.mkNew (800, 600))) = true ∧
     isErr (ViewportObj.canvasSizeA (ViewportObj.mkNew (800, 600))) = true ∧
     isErr (ViewportObj.zoomScaleA (ViewportObj.mkNew (800, 600))) = true ∧
     isErr (ViewportObj.offsetA (ViewportObj.mkNew (800, 600))) = true ∧
     isErr (ViewportObj.image_to_viewport_coordsE (ViewportObj.mkNew (800, 600)) (1, 2) true) = true ∧
     isErr (ViewportObj.image_to_viewport_coordsE (ViewportObj.mkNew (800, 600)) (1, 2) false) = true ∧
     isErr (ViewportObj.viewport_to_image_coordsE (ViewportObj.mkNew (800, 600)) (1, 2)) = true ∧
     isErr (ViewportObj.crop_and_resizeE (ViewportObj.mkNew (800, 600)) (5, 6)) = true ∧
     ViewportObj.set_offsetE (ViewportObj.mkNew (800, 600)) (10, 10) =
       Except.ok (ViewportObj.mkNew (800, 600))) :=
  ⟨by norm_num,
   C5_fail_fast_amended (800, 600) 2 (by norm_num) none 3 4 (1, 2) (10, 10) (5, 6)⟩

/-! ## Claim C1 -/

/-- `vpFit` evaluated: viewport (800,600), canvas (1600,1200), zoom 1/2,
offset (800,600), base 1/2. -/
theorem vpFit_eq : vpFit = ⟨(800, 600), (1600, 1200), 1/2, (800, 600), 1/2⟩ := by
  unfold vpFit Viewport.setup_canvas_for_image
  norm_num [min_def]
  constructor <;> (apply pyTrunc_eval_nonneg <;> norm_num)

/-- The ROI of `vpFit`: the whole canvas `[0,0]..[1600,1200]`. -/
theorem vpFit_roi : vpFit.roi = ⟨(0, 0), (1600, 1200)⟩ := by
  rw [vpFit_eq]
  have hW : Viewport.roiW ⟨(800, 600), (1600, 1200), 1/2, (800, 600), 1/2⟩ = 1600 := by
    unfold Viewport.roiW
    apply pyTrunc_eval_nonneg <;> norm_num
  have hH : Viewport.roiH ⟨(800, 600), (1600, 1200), 1/2, (800, 600), 1/2⟩ = 1200 := by
    unfold Viewport.roiH
    apply pyTrunc_eval_nonneg <;> norm_num
  have hX : Viewport.roiX ⟨(800, 600), (1600, 1200), 1/2, (800, 600), 1/2⟩ = 0 := by
    unfold Viewport.roiX
    rw [hW]
    have hT : pyTrunc (((800 : ℤ) : ℚ) - ((800 : ℤ) : ℚ) / (2 * (1/2))) = 0 := by
      apply pyTrunc_eval_nonneg <;> norm_num
    norm_num at hT ⊢
  have hY : Viewport.roiY ⟨(800, 600), (1600, 1200), 1/2, (800, 600), 1/2⟩ = 0 := by
    unfold Viewport.roiY
    rw [hH]
    have hT : pyTrunc (((600 : ℤ) : ℚ) - ((600 : ℤ) : ℚ) / (2 * (1/2))) = 0 := by
      apply pyTrunc_eval_nonneg <;> norm_num
    norm_num at hT ⊢
  unfold Viewport.roi
  rw [hW, hH, hX, hY]
  norm_num

/-- The integer target dimensions of `vpFit` used by the coordinate maps. -/
theorem vpFit_targets : vpFit.targetW = 800 ∧ vpFit.targetH = 600 := by
  have hFr := vpFit_roi
  rw [vpFit_eq] at hFr
  have hX : (Viewport.roiX ⟨(800, 600), (1600, 1200), 1/2, (800, 600), 1/2⟩ : ℚ) = 0 := by
    have := congrArg (fun b => b.p0.1) hFr
    simpa [Viewport.roi] using this
  have hY : (Viewport.roiY ⟨(800, 600), (1600, 1200), 1/2, (800, 600), 1/2⟩ : ℚ) = 0 := by
    have := congrArg (fun b => b.p0.2) hFr
    simpa [Viewport.roi] using this
  have hW : Viewport.roiW ⟨(800, 600), (1600, 1200), 1/2, (800, 600), 1/2⟩ = 1600 := by
    unfold Viewport.roiW
    apply pyTrunc_eval_nonneg <;> norm_num
  have hH : Viewport.roiH ⟨(800, 600), (1600, 1200), 1/2, (800, 600), 1/2⟩ = 1200 := by
    unfold Viewport.roiH
    apply pyTrunc_eval_nonneg <;> norm_num
  have heW : Viewport.effW ⟨(800, 600), (1600, 1200), 1/2, (800, 600), 1/2⟩ = 1600 := by
    unfold Viewport.effW
    rw [hW, hX]
    norm_num [min_def, max_def]
  have heH : Viewport.effH ⟨(800, 600), (1600, 1200), 1/2, (800, 600), 1/2⟩ = 1200 := by
    unfold Viewport.effH
    rw [hH, hY]
    norm_num [min_def, max_def]
  have hsc : Viewport.scaleV ⟨(800, 600), (1600, 1200), 1/2, (800, 600), 1/2⟩ = 1/2 := by
    unfold Viewport.scaleV
    rw [heW, heH]
    norm_num [min_def]
  constructor
  · rw [vpFit_eq]
    unfold Viewport.targetW
    rw [heW, hsc]
    apply pyTrunc_eval_nonneg <;> norm_num
  · rw [vpFit_eq]
    unfold Viewport.targetH
    rw [heH, hsc]
    apply pyTrunc_eval_nonneg <;> norm_num

/-- Claim C1 counterexample: `vpC1` is the setup state for a 100x100 image in
an 800x400 viewport; its ROI is `[0,0]..[200,100]`.  The image-space point
`(150, 50)` lies inside the ROI, yet
`viewport_to_image_coords(image_to_viewport_coords(P, clamp=False))` returns
`(100, 50)` — an error of 50 pixels, far beyond sub-pixel tolerance.  (The
point lies beyond the canvas, in the letterboxed part of the ROI, and the
inverse transform clamps it back to the image edge.) -/
theorem C1_roundtrip_counterexample :
    vpC1 = Viewport.setup_canvas_for_image (800, 400) 100 100 ∧
    (vpC1.roi).p0.1 ≤ 150 ∧ (150 : ℚ) ≤ (vpC1.roi).p1.1 ∧
    (vpC1.roi).p0.2 ≤ 50 ∧ (50 : ℚ) ≤ (vpC1.roi).p1.2 ∧
    vpC1.viewport_to_image_coords (vpC1.image_to_viewport_coords (150, 50) false) =
      (100, 50) := by
  refine ⟨rfl, ?_, ?_, ?_, ?_, ?_⟩
  · rw [vpC1_roi]; norm_num
  · rw [vpC1_roi]; norm_num
  · rw [vpC1_roi]; norm_num
  · rw [vpC1_roi]; norm_num
  rw [vpC1_eq]
  have hW : Viewport.roiW ⟨(800, 400), (100, 100), 4, (50, 50), 4⟩ = 200 := by
    unfold Viewport.roiW
    apply pyTrunc_eval_nonneg <;> norm_num
  have hH : Viewport.roiH ⟨(800, 400), (100, 100), 4, (50, 50), 4⟩ = 100 := by
    unfold Viewport.roiH
    apply pyTrunc_eval_nonneg <;> norm_num
  have hX : Viewport.roiX ⟨(800, 400), (100, 100), 4, (50, 50), 4⟩ = 0 := by
    unfold Viewport.roiX
    rw [hW]
    have hT : pyTrunc (((50 : ℤ) : ℚ) - ((800 : ℤ) : ℚ) / (2 * 4)) = -50 := by
      apply pyTrunc_eval_nonpos <;> norm_num
    norm_num at hT ⊢
  have hY : Viewport.roiY ⟨(800, 400), (100, 100), 4, (50, 50), 4⟩ = 0 := by
    unfold Viewport.roiY
    rw [hH]
    have hT : pyTrunc (((50 : ℤ) : ℚ) - ((400 : ℤ) : ℚ) / (2 * 4)) = 0 := by
      apply pyTrunc_eval_nonneg <;> norm_num
    norm_num at hT ⊢
  have heW : Viewport.effW ⟨(800, 400), (100, 100), 4, (50, 50), 4⟩ = 100 := by
    unfold Viewport.effW
    rw [hW, hX]
    norm_num [min_def, max_def]
  have heH : Viewport.effH ⟨(800, 400), (100, 100), 4, (50, 50), 4⟩ = 100 := by
    unfold Viewport.effH
    rw [hH, hY]
    norm_num [min_def, max_def]
  have hsc : Viewport.scaleV ⟨(800, 400), (100, 100), 4, (50, 50), 4⟩ = 4 := by
    unfold Viewport.scaleV
    rw [heW, heH]
    norm_num [min_def]
  have htW : Viewport.targetW ⟨(800, 400), (100, 100), 4, (50, 50), 4⟩ = 400 := by
    unfold Viewport.targetW
    rw [heW, hsc]
    apply pyTrunc_eval_nonneg <;> norm_num
  have htH : Viewport.targetH ⟨(800, 400), (100, 100), 4, (50, 50), 4⟩ = 400 := by
    unfold Viewport.targetH
    rw [heH, hsc]
    apply pyTrunc_eval_nonneg <;> norm_num
  have hsx : Viewport.effScaleX ⟨(800, 400), (100, 100), 4, (50, 50), 4⟩ = 4 := by
    unfold Viewport.effScaleX
    rw [htW, heW]
    norm_num
  have hsy : Viewport.effScaleY ⟨(800, 400), (100, 100), 4, (50, 50), 4⟩ = 4 := by
    unfold Viewport.effScaleY
    rw [htH, heH]
    norm_num
  have hpx : Viewport.padX ⟨(800, 400), (100, 100), 4, (50, 50), 4⟩ = 200 := by
    unfold Viewport.padX
    rw [htW]
    decide
  have hpy : Viewport.padY ⟨(800, 400), (100, 100), 4, (50, 50), 4⟩ = 0 := by
    unfold Viewport.padY
    rw [htH]
    decide
  unfold Viewport.viewport_to_image_coords Viewport.image_to_viewport_coords
  rw [hsx, hsy, hpx, hpy, heW, heH, hX, hY]
  norm_num [qclip, min_def, max_def]

/-- Claim C1 as amended: the round trip
`viewport_to_image_coords(image_to_viewport_coords(P, clamp=False)) = P` holds
EXACTLY — in particular within sub-pixel tolerance — for every point P that
lies inside the current ROI AND inside the canvas `[0, canvasSize]` (the claim
as stated fails for ROI points beyond the canvas, see the counterexample),
provided the integer target dimensions are at least 1 (for degenerate, very
thin images `target_w = int(eff_w*scale)` can truncate to 0, collapsing the
forward map). -/
theorem C1_roundtrip_amended (s : Viewport) (p : ℚ × ℚ)
    (hx0 : (s.roi).p0.1 ≤ p.1) (hx1 : p.1 ≤ (s.roi).p1.1)
    (hy0 : (s.roi).p0.2 ≤ p.2) (hy1 : p.2 ≤ (s.roi).p1.2)
    (hcx : p.1 ≤ (s.canvasSize.1 : ℚ)) (hcy : p.2 ≤ (s.canvasSize.2 : ℚ))
    (htw : 1 ≤ s.targetW) (hth : 1 ≤ s.targetH) :
    s.viewport_to_image_coords (s.image_to_viewport_coords p false) = p := by
  obtain ⟨px, py⟩ := p
  have hrx0 : (s.roiX : ℚ) ≤ px := hx0
  have hry0 : (s.roiY : ℚ) ≤ py := hy0
  have hrx1 : px ≤ ((s.roiX + s.roiW : ℤ) : ℚ) := hx1
  have hry1 : py ≤ ((s.roiY + s.roiH : ℤ) : ℚ) := hy1
  push_cast at hrx1 hry1
  have heW : (0:ℚ) < s.effW := lt_of_lt_of_le one_pos (le_max_right _ _)
  have heH : (0:ℚ) < s.effH := lt_of_lt_of_le one_pos (le_max_right _ _)
  have htx : (0:ℚ) < s.effScaleX := by
    apply div_pos _ heW
    have h1 : (0:ℤ) < s.targetW := lt_of_lt_of_le one_pos htw
    exact_mod_cast h1
  have hty : (0:ℚ) < s.effScaleY := by
    apply div_pos _ heH
    have h1 : (0:ℤ) < s.targetH := lt_of_lt_of_le one_pos hth
    exact_mod_cast h1
  have hex : px - (s.roiX : ℚ) ≤ s.effW := by
    refine le_trans (le_min ?_ ?_) (le_max_left _ _)
    · linarith
    · linarith
  have hey : py - (s.roiY : ℚ) ≤ s.effH := by
    refine le_trans (le_min ?_ ?_) (le_max_left _ _)
    · linarith
    · linarith
  unfold Viewport.viewport_to_image_coords Viewport.image_to_viewport_coords
  dsimp only [cond]
  rw [Prod.mk.injEq]
  constructor
  · exact roundtrip_component _ _ _ _ _ htx hrx0 hex
  · exact roundtrip_component _ _ _ _ _ hty hry0 hey

/-- Witness for C1 at `vpFit` and the interior point `(500, 400)`. -/
theorem C1_roundtrip_amended_witness :
    ((vpFit.roi).p0.1 ≤ 500 ∧ (500 : ℚ) ≤ (vpFit.roi).p1.1 ∧
     (vpFit.roi).p0.2 ≤ 400 ∧ (400 : ℚ) ≤ (vpFit.roi).p1.2 ∧
     (500 : ℚ) ≤ (vpFit.canvasSize.1 : ℚ) ∧ (400 : ℚ) ≤ (vpFit.canvasSize.2 : ℚ) ∧
     1 ≤ vpFit.targetW ∧ 1 ≤ vpFit.targetH) ∧
    vpFit.viewport_to_image_coords (vpFit.image_to_viewport_coords (500, 400) false) =
      (500, 400) := by
  have h1 : (vpFit.roi).p0.1 ≤ 500 := by rw [vpFit_roi]; norm_num
  have h2 : (500 : ℚ) ≤ (vpFit.roi).p1.1 := by rw [vpFit_roi]; norm_num
  have h3 : (vpFit.roi).p0.2 ≤ 400 := by rw [vpFit_roi]; norm_num
  have h4 : (400 : ℚ) ≤ (vpFit.roi).p1.2 := by rw [vpFit_roi]; norm_num
  have h5 : (500 : ℚ) ≤ (vpFit.canvasSize.1 : ℚ) := by rw [vpFit_eq]; norm_num
  have h6 : (400 : ℚ) ≤ (vpFit.canvasSize.2 : ℚ) := by rw [vpFit_eq]; norm_num
  have h7 : 1 ≤ vpFit.targetW := by rw [vpFit_targets.1]; norm_num
  have h8 : 1 ≤ vpFit.targetH := by rw [vpFit_targets.2]; norm_num
  exact ⟨⟨h1, h2, h3, h4, h5, h6, h7, h8⟩,
    C1_roundtrip_amended vpFit (500, 400) h1 h2 h3 h4 h5 h6 h7 h8⟩

/-! ## Claim C2 -/

/-- `vpC2` evaluated: viewport (400,600), canvas (100,50), zoom 4,
offset (50,25), base 4. -/
theorem vpC2_eq : vpC2 = ⟨(400, 600), (100, 50), 4, (50, 25), 4⟩ := by
  unfold vpC2 Viewport.setup_canvas_for_image
  norm_num [min_def]
  constructor <;> (apply pyTrunc_eval_nonneg <;> norm_num)

/-- The ROI of `vpC2`: `[0,0]..[100,150]`, overshooting the 50-pixel canvas on
the y axis. -/
theorem vpC2_roi : vpC2.roi = ⟨(0, 0), (100, 150)⟩ := by
  rw [vpC2_eq]
  have hW : Viewport.roiW ⟨(400, 600), (100, 50), 4, (50, 25), 4⟩ = 100 := by
    unfold Viewport.roiW
    apply pyTrunc_eval_nonneg <;> norm_num
  have hH : Viewport.roiH ⟨(400, 600), (100, 50), 4, (50, 25), 4⟩ = 150 := by
    unfold Viewport.roiH
    apply pyTrunc_eval_nonneg <;> norm_num
  have hX : Viewport.roiX ⟨(400, 600), (100, 50), 4, (50, 25), 4⟩ = 0 := by
    unfold Viewport.roiX
    rw [hW]
    have hT : pyTrunc (((50 : ℤ) : ℚ) - ((400 : ℤ) : ℚ) / (2 * 4)) = 0 := by
      apply pyTrunc_eval_nonneg <;> norm_num
    norm_num at hT ⊢
  have hY : Viewport.roiY ⟨(400, 600), (100, 50), 4, (50, 25), 4⟩ = 0 := by
    unfold Viewport.roiY
    rw [hH]
    have hT : pyTrunc (((25 : ℤ) : ℚ) - ((600 : ℤ) : ℚ) / (2 * 4)) = -50 := by
      apply pyTrunc_eval_nonpos <;> norm_num
    norm_num at hT ⊢
  unfold Viewport.roi
  rw [hW, hH, hX, hY]
  norm_num

/-- Claim C2 counterexample: `vpC2` is the state `setup_canvas_for_image`
produces for a 100x50 image in a 400x600 viewport (so it is reachable, by the
empty sequence of calls).  Its ROI ends at `y = 150`, which exceeds
`canvasSize.y = 50`: the ROI does NOT lie within `[0, canvasSize]` on the y
axis, and it spans `[0, 150]`, not exactly the canvas `[0, 50]`, refuting both
parts of the claim for the taller-than-canvas axis. -/
theorem C2_roi_counterexample :
    vpC2 = Viewport.setup_canvas_for_image (400, 600) 50 100 ∧
    (vpC2.roi).p1.2 = 150 ∧ (vpC2.canvasSize.2 : ℚ) = 50 := by
  refine ⟨rfl, ?_, ?_⟩
  · rw [vpC2_roi]
  · rw [vpC2_eq]
    norm_num

/-- Claim C2 as amended: in every Viewport state reachable after
`setup_canvas_for_image` (the bounds in fact hold for ANY state), the ROI
origin is nonnegative; on an axis where the ROI is no larger than the canvas
the ROI lies within `[0, canvasSize]`; on an axis where the ROI is LARGER
than the canvas, only the origin is pinned to 0 — the far edge is
`roi_width > canvasSize`, overshooting the canvas (the downstream
`eff_w`/`eff_h` clamp in the coordinate maps and the numpy slice in `crop`
compensate), rather than the ROI being pinned to span exactly the canvas. -/
theorem C2_roi_amended (s₀ s : Viewport) (_h₀ : IsSetup s₀) (_hr : ReachFrom s₀ s) :
    (0 ≤ (s.roi).p0.1 ∧ 0 ≤ (s.roi).p0.2) ∧
    (s.roiW ≤ s.canvasSize.1 → (s.roi).p1.1 ≤ (s.canvasSize.1 : ℚ)) ∧
    (s.roiH ≤ s.canvasSize.2 → (s.roi).p1.2 ≤ (s.canvasSize.2 : ℚ)) ∧
    (s.canvasSize.1 < s.roiW → (s.roi).p0.1 = 0 ∧ (s.roi).p1.1 = (s.roiW : ℚ)) ∧
    (s.canvasSize.2 < s.roiH → (s.roi).p0.2 = 0 ∧ (s.roi).p1.2 = (s.roiH : ℚ)) := by
  have axX := roi_clamp_axis
    (pyTrunc ((s.offset.1 : ℚ) - (s.size.1 : ℚ) / (2 * s.zoomScale)))
    s.canvasSize.1 s.roiW
  have axY := roi_clamp_axis
    (pyTrunc ((s.offset.2 : ℚ) - (s.size.2 : ℚ) / (2 * s.zoomScale)))
    s.canvasSize.2 s.roiH
  have hXdef : s.roiX = max 0
      (min (pyTrunc ((s.offset.1 : ℚ) - (s.size.1 : ℚ) / (2 * s.zoomScale)))
           (s.canvasSize.1 - s.roiW)) := rfl
  have hYdef : s.roiY = max 0
      (min (pyTrunc ((s.offset.2 : ℚ) - (s.size.2 : ℚ) / (2 * s.zoomScale)))
           (s.canvasSize.2 - s.roiH)) := rfl
  refine ⟨⟨?_, ?_⟩, ?_, ?_, ?_, ?_⟩
  · show (0:ℚ) ≤ (s.roiX : ℚ)
    have h : 0 ≤ s.roiX := by rw [hXdef]; exact axX.1
    exact_mod_cast h
  · show (0:ℚ) ≤ (s.roiY : ℚ)
    have h : 0 ≤ s.roiY := by rw [hYdef]; exact axY.1
    exact_mod_cast h
  · intro h
    show ((s.roiX + s.roiW : ℤ) : ℚ) ≤ (s.canvasSize.1 : ℚ)
    have h2 : s.roiX + s.roiW ≤ s.canvasSize.1 := by rw [hXdef]; exact axX.2.1 h
    exact_mod_cast h2
  · intro h
    show ((s.roiY + s.roiH : ℤ) : ℚ) ≤ (s.canvasSize.2 : ℚ)
    have h2 : s.roiY + s.roiH ≤ s.canvasSize.2 := by rw [hYdef]; exact axY.2.1 h
    exact_mod_cast h2
  · intro h
    have h0 : s.roiX = 0 := by rw [hXdef]; exact axX.2.2 h
    constructor
    · show ((s.roiX : ℤ) : ℚ) = 0
      rw [h0]
      norm_num
    · show ((s.roiX + s.roiW : ℤ) : ℚ) = (s.roiW : ℚ)
      rw [h0]
      norm_num
  · intro h
    have h0 : s.roiY = 0 := by rw [hYdef]; exact axY.2.2 h
    constructor
    · show ((s.roiY : ℤ) : ℚ) = 0
      rw [h0]
      norm_num
    · show ((s.roiY + s.roiH : ℤ) : ℚ) = (s.roiH : ℚ)
      rw [h0]
      norm_num

/-- Witness for C2 at the setup state `vpC2` itself. -/
theorem C2_roi_amended_witness :
    IsSetup vpC2 ∧
    ((0 ≤ (vpC2.roi).p0.1 ∧ 0 ≤ (vpC2.roi).p0.2) ∧
     (vpC2.roiW ≤ vpC2.canvasSize.1 → (vpC2.roi).p1.1 ≤ (vpC2.canvasSize.1 : ℚ)) ∧
     (vpC2.roiH ≤ vpC2.canvasSize.2 → (vpC2.roi).p1.2 ≤ (vpC2.canvasSize.2 : ℚ)) ∧
     (vpC2.canvasSize.1 < vpC2.roiW → (vpC2.roi).p0.1 = 0 ∧ (vpC2.roi).p1.1 = (vpC2.roiW : ℚ)) ∧
     (vpC2.canvasSize.2 < vpC2.roiH → (vpC2.roi).p0.2 = 0 ∧ (vpC2.roi).p1.2 = (vpC2.roiH : ℚ))) := by
  have hset : IsSetup vpC2 :=
    ⟨(400, 600), 50, 100, by norm_num, by norm_num, by norm_num, by norm_num, rfl⟩
  exact ⟨hset, C2_roi_amended vpC2 vpC2 hset ReachFrom.refl⟩

/-! ## Claim C3 -/

/-- `Viewport.zoom` never changes `baseZoomScale`. -/
theorem zoom_baseZoomScale (s : Viewport) (m : ℚ) (c : ℚ × ℚ) :
    (Viewport.zoom s m c).baseZoomScale = s.baseZoomScale := by
  unfold Viewport.zoom
  split <;> rfl

/-- The zoom scale after `Viewport.zoom`. -/
theorem zoom_zoomScale (s : Viewport) (m : ℚ) (c : ℚ × ℚ) :
    (Viewport.zoom s m c).zoomScale = if m = 1 then s.zoomScale else s.newZoomScale m := by
  unfold Viewport.zoom
  split <;> rfl

/-- `vpC3` evaluated: the result of `zoom(2, center=(0,0))` from `vpFit`. -/
theorem vpC3_eq : vpC3 = ⟨(800, 600), (1600, 1200), 1, (400, 300), 1/2⟩ := by
  have h1 : Viewport.zoomUnclamped ⟨(800, 600), (1600, 1200), 1/2, (800, 600), 1/2⟩ 2 (0, 0)
      = ⟨(800, 600), (1600, 1200), 1, (400, 300), 1/2⟩ := by
    unfold Viewport.zoomUnclamped Viewport.zoomOffsetExact Viewport.center_canvas
      Viewport.newZoomScale
    dsimp only
    norm_num
    all_goals first
    | (constructor <;> (apply pyTrunc_eval_nonneg <;> norm_num))
    | (apply pyTrunc_eval_nonneg <;> norm_num)
  have h2 : Viewport.clamp_offset ⟨(800, 600), (1600, 1200), 1, (400, 300), 1/2⟩
      = ⟨(800, 600), (1600, 1200), 1, (400, 300), 1/2⟩ := by
    unfold Viewport.clamp_offset
    dsimp only
    have hT1 : pyTrunc (((800 : ℤ) : ℚ) / (2 * 1)) = 400 := by
      apply pyTrunc_eval_nonneg <;> norm_num
    have hT2 : pyTrunc (((600 : ℤ) : ℚ) / (2 * 1)) = 300 := by
      apply pyTrunc_eval_nonneg <;> norm_num
    norm_num at hT1 hT2 ⊢
    rw [hT1, hT2]
    decide
  unfold vpC3
  rw [vpFit_eq]
  unfold Viewport.zoom
  rw [if_neg (by norm_num : (2:ℚ) ≠ 1)]
  unfold Viewport.zoomCore
  rw [h1, h2]

/-- Claim C3 counterexample: `vpC3` is reachable from the setup state `vpFit`
(one `zoom(2, (0,0))` call).  Calling `zoom(0.5, center=(800,600))` from
`vpC3` hits the offset clamp (`_clamp_offset` moves the recomputed offset from
(0,0) to (800,600)), and the image-space point that was under the screen
coordinate `C = (800,600)` — namely image point (800,600) — afterwards maps to
screen coordinate (400,300), a deviation of 400/300 pixels from C, far beyond
rounding tolerance. -/
theorem C3_zoom_center_counterexample :
    vpFit = Viewport.setup_canvas_for_image (800, 600) 1200 1600 ∧
    ReachFrom vpFit vpC3 ∧
    vpC3 = ⟨(800, 600), (1600, 1200), 1, (400, 300), 1/2⟩ ∧
    vpC3.center_canvas (800, 600) = (800, 600) ∧
    (Viewport.zoom vpC3 (1/2) (800, 600)).screenOf (vpC3.center_canvas (800, 600))
      = (400, 300) := by
  have hzoom : Viewport.zoom vpC3 (1/2) (800, 600)
      = ⟨(800, 600), (1600, 1200), 1/2, (800, 600), 1/2⟩ := by
    have h1 : Viewport.zoomUnclamped ⟨(800, 600), (1600, 1200), 1, (400, 300), 1/2⟩
        (1/2) (800, 600) = ⟨(800, 600), (1600, 1200), 1/2, (0, 0), 1/2⟩ := by
      unfold Viewport.zoomUnclamped Viewport.zoomOffsetExact Viewport.center_canvas
        Viewport.newZoomScale
      dsimp only
      norm_num
      all_goals first
      | (constructor <;> (apply pyTrunc_eval_nonneg <;> norm_num))
      | (apply pyTrunc_eval_nonneg <;> norm_num)
    have h2 : Viewport.clamp_offset ⟨(800, 600), (1600, 1200), 1/2, (0, 0), 1/2⟩
        = ⟨(800, 600), (1600, 1200), 1/2, (800, 600), 1/2⟩ := by
      unfold Viewport.clamp_offset
      dsimp only
      have hT1 : pyTrunc (((800 : ℤ) : ℚ) / (2 * (1/2))) = 800 := by
        apply pyTrunc_eval_nonneg <;> norm_num
      have hT2 : pyTrunc (((600 : ℤ) : ℚ) / (2 * (1/2))) = 600 := by
        apply pyTrunc_eval_nonneg <;> norm_num
      norm_num at hT1 hT2 ⊢
      rw [hT1, hT2]
      decide
    rw [vpC3_eq]
    unfold Viewport.zoom
    rw [if_neg (by norm_num : (1:ℚ)/2 ≠ 1)]
    unfold Viewport.zoomCore
    rw [h1, h2]
  refine ⟨rfl, ?_, vpC3_eq, ?_, ?_⟩
  · exact ReachFrom.zoom vpFit 2 (0, 0) (by norm_num) ReachFrom.refl
  · rw [vpC3_eq]
    unfold Viewport.center_canvas
    dsimp only
    norm_num
  · rw [hzoom, vpC3_eq]
    unfold Viewport.screenOf Viewport.center_canvas
    dsimp only
    norm_num

/-- Claim C3 as amended: provided the recomputed offset needs no clamping
(`_clamp_offset` leaves the truncated new offset unchanged), the image-space
point under screen coordinate C before `zoom(m, center=C)` maps back to C
afterwards within `newZoomScale` pixels per axis — the deviation caused by the
int32 truncation of the recomputed offset, which can exceed one pixel at high
zoom, rather than a universal sub-pixel bound; with clamping the deviation is
unbounded (see the counterexample).  The screen↔image transform here is the
linear transform that `zoom` itself inverts (`center_canvas` and its inverse
`screenOf`). -/
theorem C3_zoom_center_amended (s : Viewport) (m : ℚ) (c : ℚ × ℚ)
    (hm : 0 < m) (hm1 : m ≠ 1) (hz : 0 < s.zoomScale) (hb : 0 < s.baseZoomScale)
    (hnc : Viewport.clamp_offset (Viewport.zoomUnclamped s m c) =
      Viewport.zoomUnclamped s m c) :
    |((Viewport.zoom s m c).screenOf (s.center_canvas c)).1 - c.1| < s.newZoomScale m ∧
    |((Viewport.zoom s m c).screenOf (s.center_canvas c)).2 - c.2| < s.newZoomScale m := by
  have hz2 : 0 < s.newZoomScale m := by
    unfold Viewport.newZoomScale
    dsimp only
    split
    · exact hb
    · exact mul_pos hz hm
  have hzeq : Viewport.zoom s m c = Viewport.zoomUnclamped s m c := by
    unfold Viewport.zoom
    rw [if_neg hm1]
    unfold Viewport.zoomCore
    rw [hnc]
  rw [hzeq]
  have hred1 : ((Viewport.zoomUnclamped s m c).screenOf (s.center_canvas c)).1 - c.1
      = ((Viewport.zoomOffsetExact s m c).1
          - (pyTrunc (Viewport.zoomOffsetExact s m c).1 : ℚ)) * s.newZoomScale m := by
    show ((s.center_canvas c).1 - (pyTrunc (Viewport.zoomOffsetExact s m c).1 : ℚ))
        * s.newZoomScale m + (s.size.1 : ℚ) / 2 - c.1 = _
    have hE : (Viewport.zoomOffsetExact s m c).1
        = (s.center_canvas c).1 - c.1 / s.newZoomScale m
          + (s.size.1 : ℚ) / (2 * s.newZoomScale m) := rfl
    rw [hE]
    field_simp
    ring
  have hred2 : ((Viewport.zoomUnclamped s m c).screenOf (s.center_canvas c)).2 - c.2
      = ((Viewport.zoomOffsetExact s m c).2
          - (pyTrunc (Viewport.zoomOffsetExact s m c).2 : ℚ)) * s.newZoomScale m := by
    show ((s.center_canvas c).2 - (pyTrunc (Viewport.zoomOffsetExact s m c).2 : ℚ))
        * s.newZoomScale m + (s.size.2 : ℚ) / 2 - c.2 = _
    have hE : (Viewport.zoomOffsetExact s m c).2
        = (s.center_canvas c).2 - c.2 / s.newZoomScale m
          + (s.size.2 : ℚ) / (2 * s.newZoomScale m) := rfl
    rw [hE]
    field_simp
    ring
  constructor
  · rw [hred1, abs_mul, abs_of_pos hz2]
    calc |(Viewport.zoomOffsetExact s m c).1 - (pyTrunc (Viewport.zoomOffsetExact s m c).1 : ℚ)|
          * s.newZoomScale m
        < 1 * s.newZoomScale m := mul_lt_mul_of_pos_right (pyTrunc_abs_lt_one _) hz2
      _ = s.newZoomScale m := one_mul _
  · rw [hred2, abs_mul, abs_of_pos hz2]
    calc |(Viewport.zoomOffsetExact s m c).2 - (pyTrunc (Viewport.zoomOffsetExact s m c).2 : ℚ)|
          * s.newZoomScale m
        < 1 * s.newZoomScale m := mul_lt_mul_of_pos_right (pyTrunc_abs_lt_one _) hz2
      _ = s.newZoomScale m := one_mul _

/-- Witness for C3 at `vpFit` with `zoom(2, center=(400,300))` (no clamping). -/
theorem C3_zoom_center_amended_witness :
    ((0:ℚ) < 2 ∧ (2:ℚ) ≠ 1 ∧ 0 < vpFit.zoomScale ∧ 0 < vpFit.baseZoomScale ∧
     Viewport.clamp_offset (Viewport.zoomUnclamped vpFit 2 (400, 300)) =
       Viewport.zoomUnclamped vpFit 2 (400, 300)) ∧
    (|((Viewport.zoom vpFit 2 (400, 300)).screenOf (vpFit.center_canvas (400, 300))).1 - 400|
        < vpFit.newZoomScale 2 ∧
     |((Viewport.zoom vpFit 2 (400, 300)).screenOf (vpFit.center_canvas (400, 300))).2 - 300|
        < vpFit.newZoomScale 2) := by
  have hz : 0 < vpFit.zoomScale := by rw [vpFit_eq]; norm_num
  have hb : 0 < vpFit.baseZoomScale := by rw [vpFit_eq]; norm_num
  have hU : Viewport.zoomUnclamped vpFit 2 (400, 300)
      = ⟨(800, 600), (1600, 1200), 1, (800, 600), 1/2⟩ := by
    rw [vpFit_eq]
    unfold Viewport.zoomUnclamped Viewport.zoomOffsetExact Viewport.center_canvas
      Viewport.newZoomScale
    dsimp only
    norm_num
    all_goals first
    | (constructor <;> (apply pyTrunc_eval_nonneg <;> norm_num))
    | (apply pyTrunc_eval_nonneg <;> norm_num)
  have hC : Viewport.clamp_offset ⟨(800, 600), (1600, 1200), 1, (800, 600), 1/2⟩
      = ⟨(800, 600), (1600, 1200), 1, (800, 600), 1/2⟩ := by
    unfold Viewport.clamp_offset
    dsimp only
    have hT1 : pyTrunc (((800 : ℤ) : ℚ) / (2 * 1)) = 400 := by
      apply pyTrunc_eval_nonneg <;> norm_num
    have hT2 : pyTrunc (((600 : ℤ) : ℚ) / (2 * 1)) = 300 := by
      apply pyTrunc_eval_nonneg <;> norm_num
    norm_num at hT1 hT2 ⊢
    rw [hT1, hT2]
    decide
  have hnc : Viewport.clamp_offset (Viewport.zoomUnclamped vpFit 2 (400, 300)) =
      Viewport.zoomUnclamped vpFit 2 (400, 300) := by
    rw [hU]
    exact hC
  exact ⟨⟨by norm_num, by norm_num, hz, hb, hnc⟩,
    C3_zoom_center_amended vpFit 2 (400, 300) (by norm_num) (by norm_num) hz hb hnc⟩

/-! ## Claim C4 -/

/-- `Viewport.pan` changes neither `zoomScale` nor `baseZoomScale`. -/
theorem pan_scales (s : Viewport) (dx dy : ℤ) :
    (Viewport.pan s dx dy).zoomScale = s.zoomScale ∧
    (Viewport.pan s dx dy).baseZoomScale = s.baseZoomScale :=
  ⟨rfl, rfl⟩

/-- `Viewport.set_offset` changes neither `zoomScale` nor `baseZoomScale`. -/
theorem set_offset_scales (s : Viewport) (v : ℚ × ℚ) :
    (Viewport.set_offset s v).zoomScale = s.zoomScale ∧
    (Viewport.set_offset s v).baseZoomScale = s.baseZoomScale :=
  ⟨rfl, rfl⟩

/-- Along any reachable sequence of zoom/pan/set_offset calls from a state
whose base zoom is below 1, the base zoom is preserved and the zoom scale
never drops below it. -/
theorem reach_scale_inv (s₀ : Viewport) (hb1 : s₀.baseZoomScale < 1)
    (hz0 : s₀.baseZoomScale ≤ s₀.zoomScale) (s : Viewport) (hr : ReachFrom s₀ s) :
    s.baseZoomScale = s₀.baseZoomScale ∧ s₀.baseZoomScale ≤ s.zoomScale := by
  induction hr with
  | refl => exact ⟨rfl, hz0⟩
  | zoom t m c hm hprev ih =>
    obtain ⟨hb, hs⟩ := ih
    refine ⟨by rw [zoom_baseZoomScale, hb], ?_⟩
    rw [zoom_zoomScale]
    split
    · exact hs
    · unfold Viewport.newZoomScale
      dsimp only
      split
      · next h => rw [hb]
      · next h =>
        push_neg at h
        have h2 : t.baseZoomScale ≤ t.zoomScale * m := h (by rw [hb]; exact hb1)
        calc s₀.baseZoomScale = t.baseZoomScale := hb.symm
          _ ≤ t.zoomScale * m := h2
  | pan t dx dy hprev ih =>
    obtain ⟨hb, hs⟩ := ih
    exact ⟨by rw [(pan_scales t dx dy).2, hb], by rw [(pan_scales t dx dy).1]; exact hs⟩
  | set_offset t v hprev ih =>
    obtain ⟨hb, hs⟩ := ih
    exact ⟨by rw [(set_offset_scales t v).2, hb], by rw [(set_offset_scales t v).1]; exact hs⟩

/-- The zoom scale after one `zoom(0.5)` call (default center). -/
theorem zoomHalf_scale (s : Viewport) :
    (Viewport.zoomHalf s).zoomScale =
      if s.baseZoomScale < 1 ∧ s.zoomScale / 2 < s.baseZoomScale then s.baseZoomScale
      else s.zoomScale / 2 := by
  unfold Viewport.zoomHalf
  rw [zoom_zoomScale, if_neg (by norm_num : (1:ℚ)/2 ≠ 1)]
  unfold Viewport.newZoomScale
  rw [show s.zoomScale * (1/2) = s.zoomScale / 2 from by ring]

/-- `zoom(0.5)` preserves the base zoom. -/
theorem zoomHalf_base (s : Viewport) :
    (Viewport.zoomHalf s).baseZoomScale = s.baseZoomScale := by
  unfold Viewport.zoomHalf
  rw [zoom_baseZoomScale]

/-- Iterated `zoom(0.5)` preserves the base zoom. -/
theorem zoomHalfIter_base (n : ℕ) : ∀ s : Viewport,
    (Viewport.zoomHalfIter n s).baseZoomScale = s.baseZoomScale := by
  induction n with
  | zero => intro s; rfl
  | succ k ih =>
    intro s
    show (Viewport.zoomHalfIter k (Viewport.zoomHalf s)).baseZoomScale = _
    rw [ih, zoomHalf_base]

/-- Splitting an iterated `zoom(0.5)` run. -/
theorem zoomHalfIter_add (a b : ℕ) : ∀ s : Viewport,
    Viewport.zoomHalfIter (a + b) s = Viewport.zoomHalfIter b (Viewport.zoomHalfIter a s) := by
  induction a with
  | zero =>
    intro s
    rw [Nat.zero_add]
    rfl
  | succ k ih =>
    intro s
    rw [show k + 1 + b = (k + b) + 1 from by omega]
    show Viewport.zoomHalfIter (k + b) (Viewport.zoomHalf s) = _
    rw [ih (Viewport.zoomHalf s)]
    rfl

/-- After enough `zoom(0.5)` calls the zoom scale reaches the base zoom
exactly: `k` halvings suffice once `zoomScale ≤ base * 2^k`. -/
theorem zoomHalfIter_reaches (b : ℚ) (hb1 : b < 1) (hb0 : 0 < b) :
    ∀ (k : ℕ) (s : Viewport), s.baseZoomScale = b → b ≤ s.zoomScale →
      s.zoomScale ≤ b * 2 ^ k → (Viewport.zoomHalfIter k s).zoomScale = b := by
  intro k
  induction k with
  | zero =>
    intro s hbs hl hu
    have he : s.zoomScale = b := le_antisymm (by simpa using hu) hl
    simpa [Viewport.zoomHalfIter] using he
  | succ k ih =>
    intro s hbs hl hu
    show (Viewport.zoomHalfIter k (Viewport.zoomHalf s)).zoomScale = b
    have hbs' : (Viewport.zoomHalf s).baseZoomScale = b := by rw [zoomHalf_base, hbs]
    have hsc := zoomHalf_scale s
    rw [hbs] at hsc
    by_cases h : b < 1 ∧ s.zoomScale / 2 < b
    · rw [if_pos h] at hsc
      refine ih _ hbs' (by rw [hsc]) ?_
      rw [hsc]
      have h2 : (1:ℚ) ≤ 2 ^ k := one_le_pow₀ (by norm_num)
      calc b = b * 1 := by ring
        _ ≤ b * 2 ^ k := by nlinarith
    · rw [if_neg h] at hsc
      push_neg at h
      have hge : b ≤ s.zoomScale / 2 := h hb1
      refine ih _ hbs' (by rw [hsc]; exact hge) ?_
      rw [hsc]
      rw [pow_succ] at hu
      linarith

/-- Once the zoom scale sits exactly at the base zoom (below 1), further
`zoom(0.5)` calls keep it there. -/
theorem zoomHalfIter_stays (m : ℕ) : ∀ s : Viewport, s.baseZoomScale < 1 →
    0 < s.baseZoomScale → s.zoomScale = s.baseZoomScale →
    (Viewport.zoomHalfIter m s).zoomScale = s.baseZoomScale := by
  induction m with
  | zero => intro s hb1 h0 he; simpa [Viewport.zoomHalfIter] using he
  | succ k ih =>
    intro s hb1 h0 he
    show (Viewport.zoomHalfIter k (Viewport.zoomHalf s)).zoomScale = _
    have h1 : (Viewport.zoomHalf s).zoomScale = s.baseZoomScale := by
      rw [zoomHalf_scale, he, if_pos ⟨hb1, by linarith⟩]
    have h2 := ih (Viewport.zoomHalf s) (by rw [zoomHalf_base]; exact hb1)
      (by rw [zoomHalf_base]; exact h0) (by rw [h1, zoomHalf_base])
    rw [h2, zoomHalf_base]

/-- Repeated `zoom(0.5)` calls eventually pin the zoom scale to the base zoom
and keep it there. -/
theorem zoomHalfIter_eventually (s : Viewport) (hb1 : s.baseZoomScale < 1)
    (hb0 : 0 < s.baseZoomScale) (hl : s.baseZoomScale ≤ s.zoomScale) :
    ∃ N, ∀ n, N ≤ n → (Viewport.zoomHalfIter n s).zoomScale = s.baseZoomScale := by
  obtain ⟨k, hk⟩ := pow_unbounded_of_one_lt (s.zoomScale / s.baseZoomScale)
    (by norm_num : (1:ℚ) < 2)
  have hu : s.zoomScale ≤ s.baseZoomScale * 2 ^ k := by
    rw [div_lt_iff₀ hb0] at hk
    nlinarith
  refine ⟨k, fun n hn => ?_⟩
  obtain ⟨m, rfl⟩ : ∃ m, n = k + m := ⟨n - k, by omega⟩
  rw [zoomHalfIter_add]
  have htb : (Viewport.zoomHalfIter k s).baseZoomScale = s.baseZoomScale :=
    zoomHalfIter_base k s
  have htz : (Viewport.zoomHalfIter k s).zoomScale = s.baseZoomScale :=
    zoomHalfIter_reaches s.baseZoomScale hb1 hb0 k s rfl hl hu
  have hst := zoomHalfIter_stays m (Viewport.zoomHalfIter k s)
    (by rw [htb]; exact hb1) (by rw [htb]; exact hb0) (by rw [htz, htb])
  rw [hst, htb]

/-- Claim C4: for every image larger than the viewport (baseZoomScale < 1),
no sequence of zoom (with positive magnification), pan, or set_offset calls
ever brings `zoomScale` below `baseZoomScale` (which itself never changes),
and from any reachable state, repeated `zoom(0.5)` calls converge to
`zoomScale == baseZoomScale` in finitely many steps and stay there.
Confirmed: `Viewport.zoom` clamps its proposal to `baseZoomScale` whenever
`baseZoomScale < 1`. -/
theorem C4_zoom_floor (size : ℤ × ℤ) (imgH imgW : ℤ)
    (h1 : 0 < size.1) (h2 : 0 < size.2) (h3 : 0 < imgH) (h4 : 0 < imgW)
    (hb : (Viewport.setup_canvas_for_image size imgH imgW).baseZoomScale < 1)
    (s : Viewport) (hr : ReachFrom (Viewport.setup_canvas_for_image size imgH imgW) s) :
    s.baseZoomScale = (Viewport.setup_canvas_for_image size imgH imgW).baseZoomScale ∧
    (Viewport.setup_canvas_for_image size imgH imgW).baseZoomScale ≤ s.zoomScale ∧
    ∃ N, ∀ n, N ≤ n → (Viewport.zoomHalfIter n s).zoomScale =
      (Viewport.setup_canvas_for_image size imgH imgW).baseZoomScale := by
  have hb0 : 0 < (Viewport.setup_canvas_for_image size imgH imgW).baseZoomScale := by
    show (0:ℚ) < (if 0 < imgW ∧ 0 < imgH then
      min ((size.1 : ℚ) / (imgW : ℚ)) ((size.2 : ℚ) / (imgH : ℚ)) else 1)
    rw [if_pos ⟨h4, h3⟩]
    apply lt_min
    · exact div_pos (by exact_mod_cast h1) (by exact_mod_cast h4)
    · exact div_pos (by exact_mod_cast h2) (by exact_mod_cast h3)
  obtain ⟨hbase, hscale⟩ := reach_scale_inv (Viewport.setup_canvas_for_image size imgH imgW)
    hb le_rfl s hr
  refine ⟨hbase, hscale, ?_⟩
  obtain ⟨N, hN⟩ := zoomHalfIter_eventually s (by rw [hbase]; exact hb)
    (by rw [hbase]; exact hb0) (by rw [hbase]; exact hscale)
  exact ⟨N, fun n hn => by rw [hN n hn, hbase]⟩

/-- Witness for C4: a 1600x1200 image in an 800x600 viewport (base zoom 1/2),
at the setup state itself. -/
theorem C4_zoom_floor_witness :
    ((Viewport.setup_canvas_for_image (800, 600) 1200 1600).baseZoomScale < 1) ∧
    ((Viewport.setup_canvas_for_image (800, 600) 1200 1600).baseZoomScale ≤
        (Viewport.setup_canvas_for_image (800, 600) 1200 1600).zoomScale ∧
     ∃ N, ∀ n, N ≤ n →
       (Viewport.zoomHalfIter n (Viewport.setup_canvas_for_image (800, 600) 1200 1600)).zoomScale
         = (Viewport.setup_canvas_for_image (800, 600) 1200 1600).baseZoomScale) := by
  have hb : (Viewport.setup_canvas_for_image (800, 600) 1200 1600).baseZoomScale < 1 := by
    have := vpFit_eq
    unfold vpFit at this
    rw [this]
    norm_num
  obtain ⟨h1, h2, h3⟩ := C4_zoom_floor (800, 600) 1200 1600 (by norm_num) (by norm_num)
    (by norm_num) (by norm_num) hb _ ReachFrom.refl
  exact ⟨hb, h2, h3⟩

/-! ## Claim C8 -/

/-- Claim C8: during an active drag on a valid annotation index, a
center-handle (index 4) update translates both corners by the delta from the
previous anchor, a corner-handle update moves only that corner's two
coordinates to the new point, the emitted `bbox_modified` box is always the
min/max re-normalization of the moved box, and the anchor (`drag_start`)
advances to the new point; in particular, dragging the top-left handle of
`[0,0,100,100]` to (20,20) emits `[20,20,100,100]`.  Confirmed. -/
theorem C8_editing_drag (a point : ℚ × ℚ) (i pidx : ℕ) (anns : List Bbox4)
    (h : i < anns.length) :
    (update_dragging ⟨true, some a, some (i, pidx)⟩ point anns).1 = true ∧
    ((update_dragging ⟨true, some a, some (i, pidx)⟩ point anns).2.2).drag_start = some point ∧
    (pidx = 4 → (update_dragging ⟨true, some a, some (i, pidx)⟩ point anns).2.1 =
      some (i, normalizeBox ⟨anns[i].x1 + (point.1 - a.1), anns[i].y1 + (point.2 - a.2),
                             anns[i].x2 + (point.1 - a.1), anns[i].y2 + (point.2 - a.2)⟩)) ∧
    (pidx = 0 → (update_dragging ⟨true, some a, some (i, pidx)⟩ point anns).2.1 =
      some (i, normalizeBox ⟨point.1, point.2, anns[i].x2, anns[i].y2⟩)) ∧
    (pidx = 1 → (update_dragging ⟨true, some a, some (i, pidx)⟩ point anns).2.1 =
      some (i, normalizeBox ⟨anns[i].x1, point.2, point.1, anns[i].y2⟩)) ∧
    (pidx = 2 → (update_dragging ⟨true, some a, some (i, pidx)⟩ point anns).2.1 =
      some (i, normalizeBox ⟨anns[i].x1, anns[i].y1, point.1, point.2⟩)) ∧
    (pidx = 3 → (update_dragging ⟨true, some a, some (i, pidx)⟩ point anns).2.1 =
      some (i, normalizeBox ⟨point.1, anns[i].y1, anns[i].x2, point.2⟩)) ∧
    (∀ j b2, (update_dragging ⟨true, some a, some (i, pidx)⟩ point anns).2.1 = some (j, b2) →
      b2.x1 ≤ b2.x2 ∧ b2.y1 ≤ b2.y2) ∧
    update_dragging ⟨true, some (0, 0), some (0, 0)⟩ (20, 20) [⟨0, 0, 100, 100⟩] =
      (true, some (0, ⟨20, 20, 100, 100⟩), ⟨true, some (20, 20), some (0, 0)⟩) := by
  have hkey : update_dragging ⟨true, some a, some (i, pidx)⟩ point anns =
      (true, some (i, normalizeBox
        (if pidx = 4 then
          ⟨anns[i].x1 + (point.1 - a.1), anns[i].y1 + (point.2 - a.2),
           anns[i].x2 + (point.1 - a.1), anns[i].y2 + (point.2 - a.2)⟩
         else if pidx = 0 then ⟨point.1, point.2, anns[i].x2, anns[i].y2⟩
         else if pidx = 1 then ⟨anns[i].x1, point.2, point.1, anns[i].y2⟩
         else if pidx = 2 then ⟨anns[i].x1, anns[i].y1, point.1, point.2⟩
         else if pidx = 3 then ⟨point.1, anns[i].y1, anns[i].x2, point.2⟩
         else anns[i])),
       ⟨true, some point, some (i, pidx)⟩) := by
    unfold update_dragging
    rw [if_neg (by simp)]
    dsimp only
    rw [dif_pos h]
    rfl
  refine ⟨by rw [hkey], by rw [hkey], ?_, ?_, ?_, ?_, ?_, ?_, by decide⟩
  · intro hp
    subst hp
    rw [hkey]
    norm_num
  · intro hp
    subst hp
    rw [hkey]
    norm_num
  · intro hp
    subst hp
    rw [hkey]
    norm_num
  · intro hp
    subst hp
    rw [hkey]
    norm_num
  · intro hp
    subst hp
    rw [hkey]
    norm_num
  · intro j b2 hjb
    rw [hkey] at hjb
    simp only [Option.some.injEq, Prod.mk.injEq] at hjb
    obtain ⟨-, hb2⟩ := hjb
    subst hb2
    exact ⟨min_le_max, min_le_max⟩

/-- Witness for C8 at the quoted scenario (top-left handle, index 0). -/
theorem C8_editing_drag_witness :
    (0 < [(⟨0, 0, 100, 100⟩ : Bbox4)].length) ∧
    (update_dragging ⟨true, some (0, 0), some (0, 0)⟩ (20, 20) [⟨0, 0, 100, 100⟩]).1 = true ∧
    (update_dragging ⟨true, some (0, 0), some (0, 0)⟩ (20, 20)
      [(⟨0, 0, 100, 100⟩ : Bbox4)]).2.1 =
      some (0, normalizeBox ⟨(20 : ℚ), 20, 100, 100⟩) := by
  have h : (0 : ℕ) < [(⟨0, 0, 100, 100⟩ : Bbox4)].length := by decide
  obtain ⟨h1, -, -, h4, -⟩ :=
    C8_editing_drag (0, 0) (20, 20) 0 0 [(⟨0, 0, 100, 100⟩ : Bbox4)] h
  exact ⟨h, h1, by rw [h4 rfl]; norm_num [normalizeBox, min_def, max_def]⟩
